import Mathlib

/-!
Verification of the taxi destination-prediction repository: the model
configuration (`config/joint_simple_mlp_tgtcls_111_cswdtx_bigger.py`), the
recurrent destination model (`model/rnn.py`) and its data-stream pipelines.

The embedding is shallow: the configuration constants become Lean
definitions, the stream pipelines become values of a small stage language
mirroring the sequence of transformer applications, and the numeric parts
of the model become functions over rationals (standing in for the
framework's floating-point tensors), with the external framework bricks
(embedders, MLPs, LSTM) kept as abstract function fields of the model.
-/

namespace Taxi

/-! ## Configuration (`config/joint_simple_mlp_tgtcls_111_cswdtx_bigger.py`) -/

/-- Configuration constant `n_begin_end_pts = 10` (line 9). -/
def n_begin_end_pts : Nat := 10

/-- Configuration constant `n_end_pts = 10` (line 10). -/
def n_end_pts : Nat := 10

/-- Configuration constant `n_valid = 1000` (line 12). -/
def n_valid : Nat := 1000

/-- The seven embedding tables (lines 22-30).  The table sizes
`data.origin_call_size + 1` and `data.stands_size + 1` depend on the `data`
module, which is outside the configuration file; they are taken as
parameters.  Each entry is (variable name, table size, output dimension). -/
def dim_embeddings (origin_call_size stands_size : Nat) :
    List (String × Nat × Nat) :=
  [ ("origin_call", origin_call_size + 1, 15),
    ("origin_stand", stands_size + 1, 10),
    ("week_of_year", 52, 10),
    ("day_of_week", 7, 10),
    ("qhour_of_day", 24 * 4, 10),
    ("day_type", 3, 10),
    ("taxi_id", 448, 10) ]

/-- Configuration value `dim_input = n_begin_end_pts * 2 * 2 + sum(x for (_, _, x) in dim_embeddings)`
(line 33). -/
def dim_input (origin_call_size stands_size : Nat) : Nat :=
  n_begin_end_pts * 2 * 2 +
    ((dim_embeddings origin_call_size stands_size).map (fun x => x.2.2)).sum

/-- Configuration value `time_tgtcls` (lines 18-20): start from `[1, 2]` and append
`time_tgtcls[-1] + time_tgtcls[-2]` for each of the 21 loop iterations. -/
def time_tgtcls : List Nat :=
  (List.range 21).foldl
    (fun l _ => l ++ [l.getD (l.length - 1) 0 + l.getD (l.length - 2) 0])
    [1, 2]

/-- Configuration value `dim_output_time = len(time_tgtcls)` (line 42). -/
def dim_output_time : Nat := time_tgtcls.length

/-- Configuration constant `batch_size = 200` (line 53). -/
def batch_size : Nat := 200

/-! ## Claims about the configuration -/

/-- C4: the configuration declares exactly seven embedding tables, their
output dimensions sum to 75, and `dim_input = n_begin_end_pts * 2 * 2 + 75
= 40 + 75 = 115`, whatever the externally supplied table sizes are. -/
theorem dim_input_eq (origin_call_size stands_size : Nat) :
    (dim_embeddings origin_call_size stands_size).length = 7 ∧
    ((dim_embeddings origin_call_size stands_size).map (fun x => x.2.2)).sum
      = 75 ∧
    dim_input origin_call_size stands_size = n_begin_end_pts * 2 * 2 + 75 ∧
    dim_input origin_call_size stands_size = 40 + 75 ∧
    dim_input origin_call_size stands_size = 115 := by
  refine ⟨rfl, rfl, rfl, rfl, rfl⟩

/-- C7: `time_tgtcls` has length 23, starts `[1, 2]`, satisfies the
Fibonacci recurrence at every later position, and `dim_output_time` is its
length, 23. -/
theorem time_tgtcls_fib :
    time_tgtcls.length = 23 ∧
    time_tgtcls.take 2 = [1, 2] ∧
    (∀ i : Fin 21, time_tgtcls.getD (i.val + 2) 0 =
      time_tgtcls.getD (i.val + 1) 0 + time_tgtcls.getD i.val 0) ∧
    dim_output_time = 23 := by
  decide

/-! ## Stream pipelines (`model/rnn.py`, class `Stream`)

Each `Stream` method builds its stream by wrapping a dataset in a sequence
of transformers.  The pipeline is embedded as the list of applied stages,
in application order. -/

/-- Python's `str.endswith`, used as `v.endswith('_mask')` in the three
`Stream` methods: whether `sfx` is a suffix of `v`. -/
def endswith (v sfx : String) : Bool := sfx.data.isSuffixOf v.data

/-- One stage of a stream pipeline, mirroring the constructors applied in
`Stream.train` / `Stream.valid` / `Stream.test` of `model/rnn.py`. -/
inductive Stage where
  | taxiDataset (name : String)
  | shuffledDataStream
  | taxiStream (dataset : String) (filename : Option String)
  | excludeTrips (validTripIds : List Nat)
  | excludeEmptyTrips
  | addDatetime
  | addDestination
  | removeTestOnlyClients
  | select (vars : List String)
  | balancedBatch (key : String) (batchSize batchSortSize : Nat)
  | batch (size : Nat)
  | padding (maskSources : List String)
  deriving DecidableEq

/-- The configuration attributes used by the `Stream` class. -/
structure StreamConfig where
  valid_set : String
  batch_size : Nat
  batch_sort_size : Nat
  deriving DecidableEq

/-- Pipeline built by `Stream.train` (rnn.py lines 121-136).  The list `valid_trips_ids` of
trip ids read from the validation HDF5 file (lines 122-123) is a
parameter, since reading the file is outside the embedding. -/
def Stream.train (config : StreamConfig) (valid_trips_ids : List Nat)
    (req_vars : List String) : List Stage :=
  let stream := [Stage.taxiDataset "train"]
  let stream := stream ++ [Stage.shuffledDataStream]
  let stream := stream ++ [Stage.excludeTrips valid_trips_ids]
  let stream := stream ++ [Stage.excludeEmptyTrips]
  let stream := stream ++ [Stage.addDatetime]
  let stream := stream ++ [Stage.addDestination]
  let stream := stream ++
    [Stage.select (req_vars.filter (fun v => !(endswith v "_mask")))]
  let stream := stream ++
    [Stage.balancedBatch "latitude" config.batch_size config.batch_sort_size]
  let stream := stream ++ [Stage.padding ["latitude", "longitude"]]
  let stream := stream ++ [Stage.select req_vars]
  stream

/-- Pipeline built by `Stream.valid` (rnn.py lines 138-147). -/
def Stream.valid (config : StreamConfig) (req_vars : List String) :
    List Stage :=
  let stream := [Stage.taxiStream config.valid_set (some "valid.hdf5")]
  let stream := stream ++ [Stage.addDatetime]
  let stream := stream ++ [Stage.addDestination]
  let stream := stream ++
    [Stage.select (req_vars.filter (fun v => !(endswith v "_mask")))]
  let stream := stream ++ [Stage.batch 1000]
  let stream := stream ++ [Stage.padding ["latitude", "longitude"]]
  let stream := stream ++ [Stage.select req_vars]
  stream

/-- Pipeline built by `Stream.test` (rnn.py lines 149-158). -/
def Stream.test (req_vars : List String) : List Stage :=
  let stream := [Stage.taxiStream "test" none]
  let stream := stream ++ [Stage.addDatetime]
  let stream := stream ++ [Stage.removeTestOnlyClients]
  let stream := stream ++
    [Stage.select (req_vars.filter (fun v => !(endswith v "_mask")))]
  let stream := stream ++ [Stage.batch 1]
  let stream := stream ++ [Stage.padding ["latitude", "longitude"]]
  let stream := stream ++ [Stage.select req_vars]
  stream

/-! ### Source-list semantics of the pipeline stages -/

/-- Modelled from the spec: `data.transformers.taxi_add_datetime` is not
under `src/`; per the spec's "addition of datetime fields" and the datetime
variables listed in `Stream.inputs` (rnn.py lines 172-174), it adds these
three sources. -/
def datetimeFields : List String :=
  ["week_of_year", "day_of_week", "qhour_of_day"]

/-- Modelled from the spec: `data.transformers.add_destination` is not
under `src/`; per the spec's "addition of the destination fields" and the
destination variables listed in `Stream.inputs` (rnn.py lines 175-176), it
adds these two sources. -/
def destinationFields : List String :=
  ["destination_latitude", "destination_longitude"]

/-- The source list produced by fuel's `Padding` transformer: each source
is kept, and each source that is in `maskSources` is followed by the new
source named with the `_mask` suffix. -/
def padSources (maskSources : List String) : List String → List String
  | [] => []
  | s :: rest =>
    if s ∈ maskSources then s :: (s ++ "_mask") :: padSources maskSources rest
    else s :: padSources maskSources rest

/-- Modelled from the spec: the effect of each stage on the stream's
source list.  `data.transformers` and `data.hdf5` are not under `src/`;
per the spec's "thin sequence-transformation pipelines (filtering, padding,
batching) expressed as composable stream transformers", trip-level filters
and batching do not change the sources, `Select` picks exactly the
requested sources (and requires each of them to be present), `Padding`
follows fuel's semantics, and the dataset sources are supplied by the
environment `env`. -/
def stepSources (env : String → List String) (srcs : List String) :
    Stage → Option (List String)
  | .taxiDataset name => some (env name)
  | .shuffledDataStream => some srcs
  | .taxiStream dataset _ => some (env dataset)
  | .excludeTrips _ => some srcs
  | .excludeEmptyTrips => some srcs
  | .addDatetime => some (srcs ++ datetimeFields)
  | .addDestination => some (srcs ++ destinationFields)
  | .removeTestOnlyClients => some srcs
  | .select vars => if (∀ v ∈ vars, v ∈ srcs) then some vars else none
  | .balancedBatch _ _ _ => some srcs
  | .batch _ => some srcs
  | .padding maskSources => some (padSources maskSources srcs)

/-- The source list at the end of a pipeline, `none` when some `Select`
requested an absent source. -/
def pipelineSources (env : String → List String) (stages : List Stage) :
    Option (List String) :=
  stages.foldl (fun acc st => acc.bind (fun srcs => stepSources env srcs st))
    (some [])

/-! ### Claims about the pipelines -/

/-- C2: `Stream.train` is exactly the composition, in this order, of
shuffled iteration over the 'train' dataset, exclusion of validation
trips, exclusion of empty trips, datetime addition, destination addition,
selection of the non-mask requested variables, balanced batching keyed on
'latitude' with the configured batch size, padding, and a final selection
of exactly `req_vars`. -/
theorem stream_train_stages (config : StreamConfig)
    (valid_trips_ids : List Nat) (req_vars : List String) :
    Stream.train config valid_trips_ids req_vars =
      [Stage.taxiDataset "train",
       Stage.shuffledDataStream,
       Stage.excludeTrips valid_trips_ids,
       Stage.excludeEmptyTrips,
       Stage.addDatetime,
       Stage.addDestination,
       Stage.select (req_vars.filter (fun v => !(endswith v "_mask"))),
       Stage.balancedBatch "latitude" config.batch_size
         config.batch_sort_size,
       Stage.padding ["latitude", "longitude"],
       Stage.select req_vars] := rfl

/-- C6: `Stream.valid` batches with a constant batch size of 1000 and
`Stream.test` with a constant batch size of 1, and in both pipelines the
batching stage comes right after the non-mask selection and right before
the padding stage. -/
theorem stream_valid_test_batch_sizes (config : StreamConfig)
    (req_vars : List String) :
    Stream.valid config req_vars =
      [Stage.taxiStream config.valid_set (some "valid.hdf5"),
       Stage.addDatetime,
       Stage.addDestination,
       Stage.select (req_vars.filter (fun v => !(endswith v "_mask"))),
       Stage.batch 1000,
       Stage.padding ["latitude", "longitude"],
       Stage.select req_vars] ∧
    Stream.test req_vars =
      [Stage.taxiStream "test" none,
       Stage.addDatetime,
       Stage.removeTestOnlyClients,
       Stage.select (req_vars.filter (fun v => !(endswith v "_mask"))),
       Stage.batch 1,
       Stage.padding ["latitude", "longitude"],
       Stage.select req_vars] := ⟨rfl, rfl⟩

/-- Every original source survives `Padding`. -/
theorem mem_padSources_of_mem {v : String} {ms : List String}
    {srcs : List String} (h : v ∈ srcs) : v ∈ padSources ms srcs := by
  induction srcs with
  | nil => cases h
  | cons s rest ih =>
    rcases List.mem_cons.mp h with h | h
    · by_cases hs : s ∈ ms <;> simp [padSources, hs, h]
    · by_cases hs : s ∈ ms <;> simp [padSources, hs, ih h]

/-- Lemma: `Padding` adds the `_mask` source for every present source listed in
`mask_sources`. -/
theorem append_mask_mem_padSources {s : String} {ms : List String}
    {srcs : List String} (h : s ∈ srcs) (hm : s ∈ ms) :
    (s ++ "_mask") ∈ padSources ms srcs := by
  induction srcs with
  | nil => cases h
  | cons t rest ih =>
    rcases List.mem_cons.mp h with h | h
    · subst h; simp [padSources, hm]
    · by_cases ht : t ∈ ms <;> simp [padSources, ht, ih h]

/-- Conversely, a source of the padded stream is either an original source
or the `_mask` companion of some source of `mask_sources`. -/
theorem mem_padSources {v : String} {ms : List String} {srcs : List String}
    (h : v ∈ padSources ms srcs) :
    v ∈ srcs ∨ ∃ s ∈ ms, v = s ++ "_mask" := by
  induction srcs with
  | nil => simp [padSources] at h
  | cons s rest ih =>
    by_cases hs : s ∈ ms
    · simp only [padSources, if_pos hs, List.mem_cons] at h
      rcases h with h | h | h
      · exact Or.inl (by simp [h])
      · exact Or.inr ⟨s, hs, h⟩
      · rcases ih h with h | h
        · exact Or.inl (List.mem_cons_of_mem _ h)
        · exact Or.inr h
    · simp only [padSources, if_neg hs, List.mem_cons] at h
      rcases h with h | h
      · exact Or.inl (by simp [h])
      · rcases ih h with h | h
        · exact Or.inl (List.mem_cons_of_mem _ h)
        · exact Or.inr h

/-- The stage list built by `Stream.train`, spelled out. -/
theorem train_eq (config : StreamConfig) (valid_trips_ids : List Nat)
    (req_vars : List String) :
    Stream.train config valid_trips_ids req_vars =
      [Stage.taxiDataset "train",
       Stage.shuffledDataStream,
       Stage.excludeTrips valid_trips_ids,
       Stage.excludeEmptyTrips,
       Stage.addDatetime,
       Stage.addDestination,
       Stage.select (req_vars.filter (fun v => !(endswith v "_mask"))),
       Stage.balancedBatch "latitude" config.batch_size
         config.batch_sort_size,
       Stage.padding ["latitude", "longitude"],
       Stage.select req_vars] := rfl

/-- The stage list built by `Stream.valid`, spelled out. -/
theorem valid_eq (config : StreamConfig) (req_vars : List String) :
    Stream.valid config req_vars =
      [Stage.taxiStream config.valid_set (some "valid.hdf5"),
       Stage.addDatetime,
       Stage.addDestination,
       Stage.select (req_vars.filter (fun v => !(endswith v "_mask"))),
       Stage.batch 1000,
       Stage.padding ["latitude", "longitude"],
       Stage.select req_vars] := rfl

/-- The stage list built by `Stream.test`, spelled out. -/
theorem test_eq (req_vars : List String) :
    Stream.test req_vars =
      [Stage.taxiStream "test" none,
       Stage.addDatetime,
       Stage.removeTestOnlyClients,
       Stage.select (req_vars.filter (fun v => !(endswith v "_mask"))),
       Stage.batch 1,
       Stage.padding ["latitude", "longitude"],
       Stage.select req_vars] := rfl

/-- When each `_mask` variable of `req_vars` is `latitude_mask` or
`longitude_mask` with its base variable also requested, every requested
variable is a source of the padded stream. -/
theorem req_mem_padded {req_vars : List String}
    (hmask : ∀ v ∈ req_vars, endswith v "_mask" = true →
      (v = "latitude_mask" ∧ "latitude" ∈ req_vars) ∨
      (v = "longitude_mask" ∧ "longitude" ∈ req_vars)) :
    ∀ v ∈ req_vars, v ∈ padSources ["latitude", "longitude"]
      (req_vars.filter (fun v => !(endswith v "_mask"))) := by
  intro v hv
  by_cases hm : endswith v "_mask" = true
  · rcases hmask v hv hm with ⟨hveq, hbase⟩ | ⟨hveq, hbase⟩
    · have hbf : "latitude" ∈
          req_vars.filter (fun v => !(endswith v "_mask")) :=
        List.mem_filter.mpr ⟨hbase, by decide⟩
      have h2 := @append_mask_mem_padSources "latitude"
        ["latitude", "longitude"] _ hbf (by decide)
      have h3 : ("latitude" ++ "_mask") = "latitude_mask" := by decide
      rw [hveq, ← h3]; exact h2
    · have hbf : "longitude" ∈
          req_vars.filter (fun v => !(endswith v "_mask")) :=
        List.mem_filter.mpr ⟨hbase, by decide⟩
      have h2 := @append_mask_mem_padSources "longitude"
        ["latitude", "longitude"] _ hbf (by decide)
      have h3 : ("longitude" ++ "_mask") = "longitude_mask" := by decide
      rw [hveq, ← h3]; exact h2
  · have hm2 : endswith v "_mask" = false := by simpa using hm
    exact mem_padSources_of_mem (List.mem_filter.mpr ⟨hv, by simp [hm2]⟩)

/-- C3 (amended): in each of `Stream.train`, `Stream.valid` and
`Stream.test`, every requested variable ending in `_mask` is dropped
before batching, `Padding` is applied with mask sources exactly
`['latitude', 'longitude']`, and the final transformer selects exactly
`req_vars`; when additionally every `_mask` name of `req_vars` is
`latitude_mask` or `longitude_mask` with its base variable also in
`req_vars`, and every non-mask requested variable is available upstream of
the first selection, the returned stream's sources are exactly `req_vars`
in the requested order. -/
theorem stream_sources_eq_req_vars (env : String → List String)
    (config : StreamConfig) (valid_trips_ids : List Nat)
    (req_vars : List String)
    (hmask : ∀ v ∈ req_vars, endswith v "_mask" = true →
      (v = "latitude_mask" ∧ "latitude" ∈ req_vars) ∨
      (v = "longitude_mask" ∧ "longitude" ∈ req_vars))
    (htrain : ∀ v ∈ req_vars, endswith v "_mask" = false →
      v ∈ env "train" ∨ v ∈ datetimeFields ∨ v ∈ destinationFields)
    (hvalid : ∀ v ∈ req_vars, endswith v "_mask" = false →
      v ∈ env config.valid_set ∨ v ∈ datetimeFields ∨ v ∈ destinationFields)
    (htest : ∀ v ∈ req_vars, endswith v "_mask" = false →
      v ∈ env "test" ∨ v ∈ datetimeFields) :
    pipelineSources env (Stream.train config valid_trips_ids req_vars)
      = some req_vars ∧
    pipelineSources env (Stream.valid config req_vars) = some req_vars ∧
    pipelineSources env (Stream.test req_vars) = some req_vars := by
  have hpad := req_mem_padded hmask
  refine ⟨?_, ?_, ?_⟩
  · have hc1 : ∀ v ∈ req_vars.filter (fun v => !(endswith v "_mask")),
        v ∈ (env "train" ++ datetimeFields) ++ destinationFields := by
      intro v hvf
      have hvm := List.mem_filter.mp hvf
      have hend : endswith v "_mask" = false := by simpa using hvm.2
      rcases htrain v hvm.1 hend with h | h | h
      · exact List.mem_append.mpr (Or.inl (List.mem_append.mpr (Or.inl h)))
      · exact List.mem_append.mpr (Or.inl (List.mem_append.mpr (Or.inr h)))
      · exact List.mem_append.mpr (Or.inr h)
    rw [train_eq]
    simp only [pipelineSources, List.foldl, stepSources, Option.some_bind]
    rw [if_pos hc1]
    simp only [Option.some_bind]
    rw [if_pos hpad]
  · have hc1 : ∀ v ∈ req_vars.filter (fun v => !(endswith v "_mask")),
        v ∈ (env config.valid_set ++ datetimeFields) ++ destinationFields := by
      intro v hvf
      have hvm := List.mem_filter.mp hvf
      have hend : endswith v "_mask" = false := by simpa using hvm.2
      rcases hvalid v hvm.1 hend with h | h | h
      · exact List.mem_append.mpr (Or.inl (List.mem_append.mpr (Or.inl h)))
      · exact List.mem_append.mpr (Or.inl (List.mem_append.mpr (Or.inr h)))
      · exact List.mem_append.mpr (Or.inr h)
    rw [valid_eq]
    simp only [pipelineSources, List.foldl, stepSources, Option.some_bind]
    rw [if_pos hc1]
    simp only [Option.some_bind]
    rw [if_pos hpad]
  · have hc1 : ∀ v ∈ req_vars.filter (fun v => !(endswith v "_mask")),
        v ∈ env "test" ++ datetimeFields := by
      intro v hvf
      have hvm := List.mem_filter.mp hvf
      have hend : endswith v "_mask" = false := by simpa using hvm.2
      rcases htest v hvm.1 hend with h | h
      · exact List.mem_append.mpr (Or.inl h)
      · exact List.mem_append.mpr (Or.inr h)
    rw [test_eq]
    simp only [pipelineSources, List.foldl, stepSources, Option.some_bind]
    rw [if_pos hc1]
    simp only [Option.some_bind]
    rw [if_pos hpad]

/-- C3, counterexample to the claim as stated: with
`req_vars = ["latitude", "latitude_mask", "longitude_mask"]`, every
`_mask` name of `req_vars` is `latitude_mask` or `longitude_mask` and
every non-mask requested variable is available upstream, yet the final
selection requests `longitude_mask`, which `Padding` never created because
`longitude` was not among the selected sources, so the stream's sources
are not `req_vars`. -/
theorem stream_sources_mask_precondition_insufficient :
    (∀ v ∈ ["latitude", "latitude_mask", "longitude_mask"],
      endswith v "_mask" = true →
        v = "latitude_mask" ∨ v = "longitude_mask") ∧
    (∀ v ∈ ["latitude", "latitude_mask", "longitude_mask"],
      endswith v "_mask" = false →
        v ∈ ["trip_id", "latitude", "longitude"]) ∧
    pipelineSources (fun _ => ["trip_id", "latitude", "longitude"])
        (Stream.train
          { valid_set := "cuts/test_times_0", batch_size := 200,
            batch_sort_size := 20 }
          [] ["latitude", "latitude_mask", "longitude_mask"])
      ≠ some ["latitude", "latitude_mask", "longitude_mask"] := by
  refine ⟨by decide, by decide, by decide⟩

/-- Witness for `stream_sources_eq_req_vars` at a concrete request. -/
theorem stream_sources_eq_req_vars_witness :
    pipelineSources (fun _ => ["trip_id", "latitude", "longitude"])
        (Stream.train
          { valid_set := "cuts/test_times_0", batch_size := 200,
            batch_sort_size := 20 }
          []
          ["latitude", "latitude_mask", "longitude", "longitude_mask",
           "day_of_week"])
      = some ["latitude", "latitude_mask", "longitude", "longitude_mask",
          "day_of_week"] ∧
    pipelineSources (fun _ => ["trip_id", "latitude", "longitude"])
        (Stream.valid
          { valid_set := "cuts/test_times_0", batch_size := 200,
            batch_sort_size := 20 }
          ["latitude", "latitude_mask", "longitude", "longitude_mask",
           "day_of_week"])
      = some ["latitude", "latitude_mask", "longitude", "longitude_mask",
          "day_of_week"] ∧
    pipelineSources (fun _ => ["trip_id", "latitude", "longitude"])
        (Stream.test
          ["latitude", "latitude_mask", "longitude", "longitude_mask",
           "day_of_week"])
      = some ["latitude", "latitude_mask", "longitude", "longitude_mask",
          "day_of_week"] :=
  stream_sources_eq_req_vars (fun _ => ["trip_id", "latitude", "longitude"])
    { valid_set := "cuts/test_times_0", batch_size := 200,
      batch_sort_size := 20 }
    []
    ["latitude", "latitude_mask", "longitude", "longitude_mask",
     "day_of_week"]
    (by decide) (by decide) (by decide) (by decide)

/-- C10: `Stream.test` applies only datetime addition and removal of
test-only clients at the record level and never adds the destination
fields, while `Stream.train` and `Stream.valid` both add them;
consequently a destination source reaches the test stream's output only
when the underlying 'test' dataset itself provides it. -/
theorem stream_test_no_destination :
    (∀ req_vars : List String,
        Stage.addDestination ∉ Stream.test req_vars ∧
        Stage.removeTestOnlyClients ∈ Stream.test req_vars ∧
        Stage.addDatetime ∈ Stream.test req_vars) ∧
    (∀ (config : StreamConfig) (valid_trips_ids : List Nat)
        (req_vars : List String),
        Stage.addDestination ∈ Stream.train config valid_trips_ids req_vars) ∧
    (∀ (config : StreamConfig) (req_vars : List String),
        Stage.addDestination ∈ Stream.valid config req_vars) ∧
    (∀ (env : String → List String) (req_vars final : List String),
        pipelineSources env (Stream.test req_vars) = some final →
        ∀ d ∈ destinationFields, d ∈ final → d ∈ env "test") := by
  refine ⟨?_, ?_, ?_, ?_⟩
  · intro req_vars
    refine ⟨?_, ?_, ?_⟩ <;> simp [Stream.test]
  · intro config valid_trips_ids req_vars
    simp [Stream.train]
  · intro config req_vars
    simp [Stream.valid]
  · intro env req_vars final h d hd hdf
    rw [test_eq] at h
    simp only [pipelineSources, List.foldl, stepSources, Option.some_bind]
      at h
    by_cases hc1 : ∀ v ∈ req_vars.filter (fun v => !(endswith v "_mask")),
        v ∈ env "test" ++ datetimeFields
    · rw [if_pos hc1] at h
      simp only [Option.some_bind] at h
      by_cases hc2 : ∀ v ∈ req_vars, v ∈ padSources ["latitude", "longitude"]
          (req_vars.filter (fun v => !(endswith v "_mask")))
      · rw [if_pos hc2] at h
        have hfin : final = req_vars := (Option.some_inj.mp h).symm
        subst hfin
        have hdd : d = "destination_latitude" ∨ d = "destination_longitude" := by
          simpa [destinationFields] using hd
        rcases mem_padSources (hc2 d hdf) with hmem | ⟨s, hs, hmaskeq⟩
        · rcases List.mem_append.mp (hc1 d hmem) with h1 | h1
          · exact h1
          · exfalso
            rcases hdd with rfl | rfl <;> exact absurd h1 (by decide)
        · exfalso
          have hss : s = "latitude" ∨ s = "longitude" := by simpa using hs
          rcases hss with rfl | rfl <;> rcases hdd with rfl | rfl <;>
            exact absurd hmaskeq (by decide)
      · rw [if_neg hc2] at h
        cases h
    · rw [if_neg hc1] at h
      simp only [Option.none_bind] at h
      cases h

/-- Witness for `stream_test_no_destination`: a 'test' dataset that does
provide `destination_latitude`, which then reaches the output. -/
theorem stream_test_no_destination_witness :
    "destination_latitude" ∈ ["latitude", "longitude", "destination_latitude"] :=
  stream_test_no_destination.2.2.2
    (fun _ => ["latitude", "longitude", "destination_latitude"])
    ["latitude", "destination_latitude"] ["latitude", "destination_latitude"]
    (by decide) "destination_latitude" (by decide) (by decide)

/-! ## The recurrent destination model (`model/rnn.py`, class `Model`)

The model's numeric data is embedded over `ℚ` (standing in for the
framework's floating-point tensors).  A batched tensor slice is a list of
rows, one row of features per example.  The external framework bricks
(the two context embedders, the two MLPs and the LSTM) are abstract
function fields of the model; everything `predict_all`, `predict` and
`cost` do with them is embedded from the source. -/

/-- A batched tensor slice: one row of rationals per example. -/
abbrev Mat := List (List ℚ)

/-- GPS normalization applied to the inputs of `predict_all` (rnn.py
lines 64-65): `x ↦ (x - mean) / std`. -/
def normalizeCoord (mean std x : ℚ) : ℚ := (x - mean) / std

/-- GPS denormalization applied to the network output (rnn.py line 77):
`y ↦ y * std + mean`. -/
def denormalizeCoord (mean std y : ℚ) : ℚ := y * std + mean

/-- Operation `tensor.concatenate(..., axis=1)`: feature-axis concatenation of two
batched slices. -/
def concatAxis1 (a b : Mat) : Mat := List.zipWith (· ++ ·) a b

/-- Operation `itr.repeat(n, axis=1)` (rnn.py line 71): every feature of every row
repeated `n` consecutive times. -/
def repeatAxis1 (n : Nat) (mat : Mat) : Mat :=
  mat.map (fun row => row.flatMap (fun x => List.replicate n x))

/-- Sum of all entries of a batched slice (`latitude_mask.sum()`). -/
def matSum (mat : Mat) : ℚ := (mat.map (fun row => row.sum)).sum

/-- The model of rnn.py, over an abstract type `κ` of context variables
(`**kwargs`).  The bricks built by `Model.__init__` are abstract
functions; `train_gps_mean` and `train_gps_std` are the two statistics
from the `data` module used on lines 64-65 and 77. -/
structure Model (κ : Type) where
  pre_context_embedder : κ → Mat
  post_context_embedder : κ → Mat
  input_to_rec : Mat → Mat
  recurrent : Mat → Mat → Mat → List ℚ → Mat × Mat
  rec_to_output : Mat → List (ℚ × ℚ)
  train_gps_mean : ℚ × ℚ
  train_gps_std : ℚ × ℚ

/-- One step of `predict_all` (rnn.py lines 63-78): normalize the GPS
slice, concatenate the pre-context embeddings with the two padded
coordinate columns, apply the input MLP, repeat its output 4 times along
the feature axis, run one (non-iterating, masked) LSTM step, concatenate
the post-context embeddings with the new states, apply the output MLP and
denormalize.  Returns `(destination, states, cells)`. -/
def Model.predict_all_step {κ : Type} (m : Model κ) (ctx : κ)
    (latitude longitude latitude_mask : List ℚ) (states cells : Mat) :
    List (ℚ × ℚ) × Mat × Mat :=
  let latitude := latitude.map
    (fun x => normalizeCoord m.train_gps_mean.1 m.train_gps_std.1 x)
  let longitude := longitude.map
    (fun x => normalizeCoord m.train_gps_mean.2 m.train_gps_std.2 x)
  let pre_emb := m.pre_context_embedder ctx
  let latitude := latitude.map (fun x => [x])
  let longitude := longitude.map (fun x => [x])
  let itr := m.input_to_rec
    (concatAxis1 (concatAxis1 pre_emb latitude) longitude)
  let itr := repeatAxis1 4 itr
  let next := m.recurrent itr states cells latitude_mask
  let post_emb := m.post_context_embedder ctx
  let rto := m.rec_to_output (concatAxis1 post_emb next.1)
  let rto := rto.map (fun p =>
    (denormalizeCoord m.train_gps_mean.1 m.train_gps_std.1 p.1,
     denormalizeCoord m.train_gps_mean.2 m.train_gps_std.2 p.2))
  (rto, next.1, next.2)

/-- Function `predict_all` as applied through the `@recurrent` decorator: scan the
step over the time-major sequences, threading states and cells, and
collect the three output sequences `(destination, states, cells)`. -/
def Model.predict_all {κ : Type} (m : Model κ) (ctx : κ)
    (latitude longitude latitude_mask : List (List ℚ))
    (states cells : Mat) :
    List (List (ℚ × ℚ)) × List Mat × List Mat :=
  match latitude, longitude, latitude_mask with
  | la :: las, lo :: los, mka :: mks =>
    let r := m.predict_all_step ctx la lo mka states cells
    let rest := Model.predict_all m ctx las los mks r.2.1 r.2.2
    (r.1 :: rest.1, r.2.1 :: rest.2.1, r.2.2 :: rest.2.2)
  | _, _, _ => ([], [], [])

/-- Method `Model.predict` (rnn.py lines 84-90): transpose the batch-major
inputs to time-major, run `predict_all`, take its destination output and
return its last element (`res[-1]`, `none` when there is no time step). -/
def Model.predict {κ : Type} (m : Model κ) (ctx : κ)
    (latitude longitude latitude_mask : Mat) (states cells : Mat) :
    Option (List (ℚ × ℚ)) :=
  let latitude := latitude.transpose
  let longitude := longitude.transpose
  let latitude_mask := latitude_mask.transpose
  let res := (m.predict_all ctx latitude longitude latitude_mask
    states cells).1
  res.getLast?

/-- Method `Model.cost` (rnn.py lines 96-110): transpose to time-major, run
`predict_all`, build the per-example destination target, repeat it over
the time axis, flatten, take the elementwise `erdist`, weight by the
flattened mask and divide by the mask sum.  `erdist` (module `error`) is
an abstract parameter. -/
def Model.cost {κ : Type} (m : Model κ) (erdist : ℚ × ℚ → ℚ × ℚ → ℚ)
    (ctx : κ) (latitude longitude latitude_mask : Mat)
    (destination_latitude destination_longitude : List ℚ)
    (states cells : Mat) : ℚ :=
  let latitude := latitude.transpose
  let longitude := longitude.transpose
  let latitude_mask := latitude_mask.transpose
  let res := (m.predict_all ctx latitude longitude latitude_mask
    states cells).1
  let target := destination_latitude.zip destination_longitude
  let target := List.replicate latitude.length target
  let ce := (target.flatten.zip res.flatten).map (fun p => erdist p.1 p.2)
  let ce := (ce.zip latitude_mask.flatten).map (fun p => p.1 * p.2)
  ce.sum / matSum latitude_mask

/-! ### The dimension-level content of `Model.__init__` -/

/-- A `ContextEmbedder` configuration: its list of
`(name, table size, output dimension)` embedding descriptors. -/
structure EmbedderConfig where
  dim_embeddings : List (String × Nat × Nat)

/-- The configuration attributes used by `Model.__init__`. -/
structure ModelConfig where
  pre_embedder : EmbedderConfig
  post_embedder : EmbedderConfig
  hidden_state_dim : Nat

/-- An MLP brick at the dimension level: its activation names and layer
dimensions. -/
structure MLPSpec where
  activations : List String
  dims : List Nat

/-- The bricks composed by `Model.__init__`, at the dimension level. -/
structure ModelArch where
  input_to_rec : MLPSpec
  recDim : Nat
  rec_to_output : MLPSpec

/-- Method `Model.__init__` (rnn.py lines 28-37) at the dimension level:
`in1 = 2 + sum(x[2] for x in config.pre_embedder.dim_embeddings)`, a Tanh
MLP `[in1, hidden_state_dim]`, an LSTM of `hidden_state_dim`, then
`in2 = hidden_state_dim + sum(x[2] for x in config.post_embedder.dim_embeddings)`
and a Tanh MLP `[in2, 2]`. -/
def Model.init_arch (config : ModelConfig) : ModelArch :=
  let in1 := 2 + (config.pre_embedder.dim_embeddings.map (fun x => x.2.2)).sum
  let itr : MLPSpec :=
    { activations := ["Tanh"], dims := [in1, config.hidden_state_dim] }
  let in2 := config.hidden_state_dim +
    (config.post_embedder.dim_embeddings.map (fun x => x.2.2)).sum
  let rto : MLPSpec := { activations := ["Tanh"], dims := [in2, 2] }
  { input_to_rec := itr, recDim := config.hidden_state_dim,
    rec_to_output := rto }

/-! ### Claims about the model -/

/-- C9: the input normalization (rnn.py lines 64-65) and the output
denormalization (line 77) of `predict_all` are mutual inverses whenever
the training standard deviation is nonzero. -/
theorem normalize_denormalize_inverse (mean std x y : ℚ) (h : std ≠ 0) :
    denormalizeCoord mean std (normalizeCoord mean std x) = x ∧
    normalizeCoord mean std (denormalizeCoord mean std y) = y := by
  constructor
  · field_simp [normalizeCoord, denormalizeCoord]
  · field_simp [normalizeCoord, denormalizeCoord]

/-- Witness for `normalize_denormalize_inverse` at mean 3, std 2. -/
theorem normalize_denormalize_inverse_witness :
    denormalizeCoord 3 2 (normalizeCoord 3 2 5) = 5 ∧
    normalizeCoord 3 2 (denormalizeCoord 3 2 7) = 7 :=
  normalize_denormalize_inverse 3 2 5 7 (by decide)

/-- The feature length of every row is multiplied by `n` when repeating
along the feature axis. -/
theorem repeatRow_length (n : Nat) (row : List ℚ) :
    (row.flatMap (fun x => List.replicate n x)).length = n * row.length := by
  induction row with
  | nil => simp
  | cons a t ih => simp [ih, Nat.mul_succ]; omega

/-- C5: `Model.__init__` composes an input Tanh MLP from
`2 + sum(pre-embedding dims)` to `hidden_state_dim`, an LSTM of dimension
`hidden_state_dim` fed at each step with the input MLP's output repeated
4 times, and an output Tanh MLP from
`hidden_state_dim + sum(post-embedding dims)` to 2. -/
theorem model_init_dims (config : ModelConfig) :
    (Model.init_arch config).input_to_rec.dims =
      [2 + (config.pre_embedder.dim_embeddings.map (fun x => x.2.2)).sum,
       config.hidden_state_dim] ∧
    (Model.init_arch config).input_to_rec.activations = ["Tanh"] ∧
    (Model.init_arch config).recDim = config.hidden_state_dim ∧
    (Model.init_arch config).rec_to_output.dims =
      [config.hidden_state_dim +
        (config.post_embedder.dim_embeddings.map (fun x => x.2.2)).sum, 2] ∧
    (Model.init_arch config).rec_to_output.activations = ["Tanh"] ∧
    (∀ (κ : Type) (m : Model κ) (ctx : κ) (la lo mk : List ℚ)
        (states cells : Mat),
      (m.predict_all_step ctx la lo mk states cells).2 =
        m.recurrent
          (repeatAxis1 4 (m.input_to_rec (concatAxis1 (concatAxis1
            (m.pre_context_embedder ctx)
            ((la.map (fun x => normalizeCoord m.train_gps_mean.1
              m.train_gps_std.1 x)).map (fun x => [x])))
            ((lo.map (fun x => normalizeCoord m.train_gps_mean.2
              m.train_gps_std.2 x)).map (fun x => [x])))))
          states cells mk) ∧
    (∀ mat : Mat, (repeatAxis1 4 mat).map List.length =
      mat.map (fun row => 4 * row.length)) := by
  refine ⟨rfl, rfl, rfl, rfl, rfl, ?_, ?_⟩
  · intro κ m ctx la lo mk states cells
    rfl
  · intro mat
    induction mat with
    | nil => rfl
    | cons row rest ih =>
      simp only [repeatAxis1, List.map_cons] at ih ⊢
      rw [repeatRow_length]
      exact congrArg _ ih

/-- The destination sequence of `predict_all` has one slice per time
step, up to the shortest of the three input sequences. -/
theorem predict_all_length {κ : Type} (m : Model κ) (ctx : κ) :
    ∀ (latitude longitude latitude_mask : List (List ℚ))
      (states cells : Mat),
      ((m.predict_all ctx latitude longitude latitude_mask
        states cells).1).length =
        min latitude.length (min longitude.length latitude_mask.length) := by
  intro latitude
  induction latitude with
  | nil =>
    intro longitude latitude_mask states cells
    simp [Model.predict_all]
  | cons la las ih =>
    intro longitude latitude_mask states cells
    cases longitude with
    | nil => simp [Model.predict_all]
    | cons lo los =>
      cases latitude_mask with
      | nil => simp [Model.predict_all]
      | cons mka mks =>
        simp only [Model.predict_all, List.length_cons, ih]
        rw [Nat.succ_min_succ, Nat.succ_min_succ]

/-- C1: `predict` returns exactly the last time-step element of the
destination sequence that `predict_all` computes on the transposed,
time-major inputs. -/
theorem predict_eq_predict_all_last {κ : Type} (m : Model κ) (ctx : κ)
    (latitude longitude latitude_mask states cells : Mat) (n : Nat)
    (hn : 0 < n)
    (hla : latitude.transpose.length = n)
    (hlo : longitude.transpose.length = n)
    (hmk : latitude_mask.transpose.length = n) :
    ((m.predict_all ctx latitude.transpose longitude.transpose
      latitude_mask.transpose states cells).1).length = n ∧
    m.predict ctx latitude longitude latitude_mask states cells =
      some (((m.predict_all ctx latitude.transpose longitude.transpose
        latitude_mask.transpose states cells).1).getD (n - 1) []) := by
  have hlen := predict_all_length m ctx latitude.transpose
    longitude.transpose latitude_mask.transpose states cells
  rw [hla, hlo, hmk, Nat.min_self, Nat.min_self] at hlen
  refine ⟨hlen, ?_⟩
  show ((m.predict_all ctx latitude.transpose longitude.transpose
      latitude_mask.transpose states cells).1).getLast? = _
  rw [List.getLast?_eq_getElem?, hlen,
    List.getElem?_eq_getElem (by omega),
    List.getD_eq_getElem _ [] (by omega)]

/-- A small concrete model instance used by the witnesses. -/
def witModel : Model Unit where
  pre_context_embedder := fun _ => [[1]]
  post_context_embedder := fun _ => [[2]]
  input_to_rec := fun mat => mat
  recurrent := fun _ states cells _ => (states, cells)
  rec_to_output := fun mat => mat.map (fun row => (row.getD 0 0, row.getD 1 0))
  train_gps_mean := (1, 2)
  train_gps_std := (2, 3)

/-- Witness for `predict_eq_predict_all_last` on a one-example,
one-time-step batch. -/
theorem predict_eq_predict_all_last_witness :
    ((witModel.predict_all () ([[5]] : Mat).transpose ([[6]] : Mat).transpose
      ([[1]] : Mat).transpose [[0]] [[0]]).1).length = 1 ∧
    witModel.predict () [[5]] [[6]] [[1]] [[0]] [[0]] =
      some (((witModel.predict_all () ([[5]] : Mat).transpose
        ([[6]] : Mat).transpose ([[1]] : Mat).transpose [[0]] [[0]]).1).getD
        (1 - 1) []) :=
  predict_eq_predict_all_last witModel () [[5]] [[6]] [[1]] [[0]] [[0]] 1
    (by decide) (by decide) (by decide) (by decide)

/-- Lemma: `zip` distributes over append when the first parts have equal
lengths. -/
theorem zip_append_eq {α β : Type} :
    ∀ (a : List α) (b : List β) (c : List α) (d : List β),
      a.length = b.length →
      (a ++ c).zip (b ++ d) = a.zip b ++ c.zip d := by
  intro a
  induction a with
  | nil =>
    intro b c d h
    cases b with
    | nil => simp
    | cons y ys => simp at h
  | cons x xs ih =>
    intro b c d h
    cases b with
    | nil => simp at h
    | cons y ys =>
      simp only [List.cons_append, List.zip_cons_cons]
      rw [ih ys c d (by simpa using h)]

/-- Zipping target with prediction in either order gives the same
mask-weighted `erdist` sum over one time step. -/
theorem block_eq (erdist : ℚ × ℚ → ℚ × ℚ → ℚ) :
    ∀ (tgt s : List (ℚ × ℚ)) (ms : List ℚ),
      ((((tgt.zip s).map (fun p => erdist p.1 p.2)).zip ms).map
        (fun p => p.1 * p.2)).sum =
      (((s.zip tgt).zip ms).map (fun q => erdist q.1.2 q.1.1 * q.2)).sum := by
  intro tgt
  induction tgt with
  | nil => intro s ms; cases s <;> simp
  | cons a t ih =>
    intro s ms
    cases s with
    | nil => simp
    | cons b bs =>
      cases ms with
      | nil => simp
      | cons mv mrest => simp [ih bs mrest]

/-- The flattened time-major mask-weighted sum against a target repeated
over the time axis equals the sum of the per-step block sums, when every
prediction and mask slice has the target's width. -/
theorem ce_join (erdist : ℚ × ℚ → ℚ × ℚ → ℚ) (tgt : List (ℚ × ℚ)) :
    ∀ (res : List (List (ℚ × ℚ))) (masks : List (List ℚ)) (T : Nat),
      res.length ≤ T →
      (∀ s ∈ res, s.length = tgt.length) →
      (∀ ms ∈ masks, ms.length = tgt.length) →
      res.length = masks.length →
      (((((List.replicate T tgt).flatten.zip res.flatten).map
          (fun p => erdist p.1 p.2)).zip masks.flatten).map
        (fun p => p.1 * p.2)).sum =
      ((res.zip masks).map (fun sm =>
        (((sm.1.zip tgt).zip sm.2).map
          (fun q => erdist q.1.2 q.1.1 * q.2)).sum)).sum := by
  intro res
  induction res with
  | nil =>
    intro masks T h1 h2 h3 h4
    cases masks with
    | nil => simp
    | cons ms mrest => simp at h4
  | cons s rest ih =>
    intro masks T h1 h2 h3 h4
    cases masks with
    | nil => simp at h4
    | cons ms mrest =>
      cases T with
      | zero => simp at h1
      | succ T2 =>
        have hs : s.length = tgt.length := h2 s (by simp)
        have hms : ms.length = tgt.length := h3 ms (by simp)
        simp only [List.replicate_succ, List.flatten_cons]
        rw [zip_append_eq tgt s ((List.replicate T2 tgt).flatten)
          rest.flatten hs.symm]
        rw [List.map_append]
        rw [zip_append_eq ((tgt.zip s).map (fun p => erdist p.1 p.2)) ms
          (((List.replicate T2 tgt).flatten.zip rest.flatten).map
            (fun p => erdist p.1 p.2)) mrest.flatten
          (by simp [hs, hms])]
        rw [List.map_append, List.sum_append]
        rw [ih mrest T2 (by simpa using Nat.le_of_succ_le_succ h1)
          (fun x hx => h2 x (by simp [hx]))
          (fun x hx => h3 x (by simp [hx]))
          (by simpa using h4)]
        rw [block_eq]
        simp

/-- C8: `cost` is the mask-weighted mean of `erdist` between each
per-step predicted destination and the per-example true destination,
which is repeated over all time steps: the sum over all (step, example)
pairs of `erdist` times the mask entry, divided by the sum of all mask
entries.  The division is the source's unguarded division, mirrored by
the claim's precondition that the mask have a nonzero sum. -/
theorem model_cost_weighted_mean {κ : Type} (m : Model κ)
    (erdist : ℚ × ℚ → ℚ × ℚ → ℚ) (ctx : κ)
    (latitude longitude latitude_mask : Mat)
    (destination_latitude destination_longitude : List ℚ)
    (states cells : Mat)
    (hrect : ∀ s ∈ (m.predict_all ctx latitude.transpose
        longitude.transpose latitude_mask.transpose states cells).1,
        s.length = (destination_latitude.zip destination_longitude).length)
    (hmaskrect : ∀ ms ∈ latitude_mask.transpose,
        ms.length = (destination_latitude.zip destination_longitude).length)
    (hlen : ((m.predict_all ctx latitude.transpose longitude.transpose
        latitude_mask.transpose states cells).1).length =
        latitude_mask.transpose.length)
    (hsum : matSum latitude_mask.transpose ≠ 0) :
    m.cost erdist ctx latitude longitude latitude_mask
        destination_latitude destination_longitude states cells =
      (((m.predict_all ctx latitude.transpose longitude.transpose
          latitude_mask.transpose states cells).1.zip
          latitude_mask.transpose).map (fun sm =>
        (((sm.1.zip (destination_latitude.zip destination_longitude)).zip
            sm.2).map (fun q => erdist q.1.2 q.1.1 * q.2)).sum)).sum /
        matSum latitude_mask.transpose := by
  have hT : ((m.predict_all ctx latitude.transpose longitude.transpose
      latitude_mask.transpose states cells).1).length ≤
      latitude.transpose.length := by
    rw [predict_all_length]
    exact Nat.min_le_left _ _
  simp only [Model.cost]
  rw [ce_join erdist (destination_latitude.zip destination_longitude)
    ((m.predict_all ctx latitude.transpose longitude.transpose
      latitude_mask.transpose states cells).1)
    latitude_mask.transpose latitude.transpose.length
    hT hrect hmaskrect hlen]

/-- Witness for `model_cost_weighted_mean` on a one-example,
one-time-step batch with a nonzero mask. -/
theorem model_cost_weighted_mean_witness :
    witModel.cost (fun a b => (a.1 - b.1) + (a.2 - b.2)) () [[5]] [[6]]
        [[1]] [7] [8] [[0]] [[0]] =
      (((witModel.predict_all () ([[5]] : Mat).transpose
          ([[6]] : Mat).transpose ([[1]] : Mat).transpose [[0]] [[0]]).1.zip
          ([[1]] : Mat).transpose).map (fun sm =>
        (((sm.1.zip ([7].zip [8])).zip sm.2).map
          (fun q => (fun a b => (a.1 - b.1) + (a.2 - b.2)) q.1.2 q.1.1 *
            q.2)).sum)).sum /
        matSum ([[1]] : Mat).transpose :=
  model_cost_weighted_mean witModel (fun a b => (a.1 - b.1) + (a.2 - b.2))
    () [[5]] [[6]] [[1]] [7] [8] [[0]] [[0]]
    (by decide) (by decide) (by decide)
    (by simp [show ([[(1 : ℚ)]] : Mat).transpose = [[1]] from by decide,
      matSum])

end Taxi
